import Mathlib

/-!
Verification of the Pulsar X2 macOS configuration tool
(command-encoding and profile-configuration core).

The Python source is shallowly embedded:
* Python dicts with string keys become insertion-ordered association lists
  (`lookupA` / `updateA` mirror `d[k]` reads and `d[k] = v` writes);
* fallible code (a `KeyError` / `ValueError` raised by the source) becomes
  `Except PyError`;
* machine bytes are plain integers with explicit `% 256`, matching the
  Python list-of-int command buffers;
* `float` lift-off distances are stored in tenths of a millimetre
  (0.7 mm ↦ 7), which is exact for every value the program uses;
* Python's `round` (round-half-to-even, "banker's rounding") is modelled
  by `pyRound10`; for the integers the program feeds it (`dpi / 10` with
  `50 ≤ dpi ≤ 32000`), the float division is exact, so the integer model
  is exact as well.
-/

/-- Errors raised by the embedded Python code.  The human-readable message
strings of the source are elided; only the error class matters. -/
inductive PyError where
  | keyError (key : String)
  | valueError
deriving DecidableEq, Repr

/-- `lookupA l k` is Python's `l[k]` read on a dict represented as an
insertion-ordered association list (`none` models a raised `KeyError`). -/
def lookupA {κ : Type} {α : Type} [DecidableEq κ] : List (κ × α) → κ → Option α
  | [], _ => none
  | (k', v) :: rest, k => if k' = k then some v else lookupA rest k

/-- `updateA l k v` is Python's `l[k] = v` on a dict represented as an
insertion-ordered association list: it replaces the value in place when the
key exists and appends the binding otherwise. -/
def updateA {κ : Type} {α : Type} [DecidableEq κ] : List (κ × α) → κ → α → List (κ × α)
  | [], k, v => [(k, v)]
  | (k', v') :: rest, k, v =>
      if k' = k then (k, v) :: rest else (k', v') :: updateA rest k v

/-! ## Constants (`src/config/settings.py`) -/

/-- `MAX_DPI = 32000` -/
def MAX_DPI : Int := 32000

/-- `POLLING_RATES = [125, 250, 500, 1000, 2000, 4000, 8000]` -/
def POLLING_RATES : List Int := [125, 250, 500, 1000, 2000, 4000, 8000]

/-- `LIFT_OFF_DISTANCE = [0.7, 1.0, 2.0]`, in tenths of a millimetre. -/
def LIFT_OFF_DISTANCE : List Int := [7, 10, 20]

/-- `BUTTON_ACTIONS`: action-name → single-byte code table. -/
def BUTTON_ACTIONS : List (String × Nat) :=
  [("Linksklick", 0x01), ("Rechtsklick", 0x02), ("Mittlere Taste", 0x03),
   ("Zurück", 0x04), ("Vorwärts", 0x05), ("DPI Hoch", 0x06),
   ("DPI Runter", 0x07), ("DPI Zyklus", 0x08), ("Scrollrad Hoch", 0x09),
   ("Scrollrad Runter", 0x0A), ("Doppelklick", 0x0B), ("Strg", 0x10),
   ("Shift", 0x11), ("Alt", 0x12), ("Windows/Command", 0x13),
   ("Deaktiviert", 0x00)]

/-- `CMD_SET_DPI = [0x20, 0, 0, 0, 0, 0, 0, 0]` -/
def CMD_SET_DPI : List Int := [0x20, 0, 0, 0, 0, 0, 0, 0]

/-- `CMD_SET_POLLING = [0x30, 0, 0, 0, 0, 0, 0, 0]` -/
def CMD_SET_POLLING : List Int := [0x30, 0, 0, 0, 0, 0, 0, 0]

/-- `CMD_SET_LIFTOFF = [0x40, 0, 0, 0, 0, 0, 0, 0]` -/
def CMD_SET_LIFTOFF : List Int := [0x40, 0, 0, 0, 0, 0, 0, 0]

/-- `CMD_SET_BUTTON = [0x50, 0, 0, 0, 0, 0, 0, 0]` -/
def CMD_SET_BUTTON : List Int := [0x50, 0, 0, 0, 0, 0, 0, 0]

/-- `CMD_SET_MOTION_SYNC = [0x60, 0, 0, 0, 0, 0, 0, 0]` -/
def CMD_SET_MOTION_SYNC : List Int := [0x60, 0, 0, 0, 0, 0, 0, 0]

/-- `CMD_SET_POWER = [0x70, 0, 0, 0, 0, 0, 0, 0]` -/
def CMD_SET_POWER : List Int := [0x70, 0, 0, 0, 0, 0, 0, 0]

/-- `CMD_SAVE_PROFILE = [0xF0, 0, 0, 0, 0, 0, 0, 0]` -/
def CMD_SAVE_PROFILE : List Int := [0xF0, 0, 0, 0, 0, 0, 0, 0]

/-! ## DPI clamping and rounding

`dpi = max(50, min(MAX_DPI, dpi)); dpi = round(dpi / 10) * 10`
(lines 241-242 of `usb_protocol.py`, lines 28-29 of `controllers/dpi.py`).
Python 3 `round` rounds halves to the even integer. -/

/-- `max(50, min(MAX_DPI, dpi))`; the result is in `[50, 32000]`, hence a `Nat`. -/
def clampDpi (dpi : Int) : Nat := (max 50 (min MAX_DPI dpi)).toNat

/-- Python's `round(n / 10)` for a natural `n` (exact: for `n ≤ 32000` the
float `n / 10` is close enough to `n/10` that rounding agrees, and halves
are exactly representable). Halves round to the even quotient. -/
def pyRoundDiv10 (n : Nat) : Nat :=
  if n % 10 < 5 then n / 10
  else if 5 < n % 10 then n / 10 + 1
  else if (n / 10) % 2 = 0 then n / 10 else n / 10 + 1

/-- `round(n / 10) * 10` -/
def round10 (n : Nat) : Nat := pyRoundDiv10 n * 10

theorem clampDpi_bounds (dpi : Int) : 50 ≤ clampDpi dpi ∧ clampDpi dpi ≤ 32000 := by
  unfold clampDpi MAX_DPI
  omega

theorem round10_mult10 (n : Nat) : round10 n % 10 = 0 := by
  unfold round10 pyRoundDiv10
  split_ifs <;> omega

theorem round10_bounds {n : Nat} (h1 : 50 ≤ n) (h2 : n ≤ 32000) :
    50 ≤ round10 n ∧ round10 n ≤ 32000 := by
  unfold round10 pyRoundDiv10
  split_ifs <;> omega

theorem round10_nearest (n m : Nat) :
    ((round10 n : Int) - n).natAbs ≤ ((10 * m : Int) - n).natAbs := by
  unfold round10 pyRoundDiv10
  split_ifs <;> omega

theorem round10_tie_even {n : Nat} (h : n % 10 = 5) : round10 n % 20 = 0 := by
  unfold round10 pyRoundDiv10
  split_ifs <;> omega

/-! ## Data model (`src/config/profiles.py`) -/

/-- One entry of the `buttons` dict: `{"action": name, "code": byte}`. -/
structure ButtonCfg where
  action : String
  code : Nat
deriving DecidableEq, Repr

/-- The `power_saving` dict: `{"idle_time": s, "low_battery_threshold": p}`. -/
structure PowerSaving where
  idle_time : Int
  low_battery_threshold : Int
deriving DecidableEq, Repr

/-- One profile's settings dict (value model, no aliasing). -/
structure Profile where
  dpi_stages : List (String × Int)
  active_dpi_stage : Int
  polling_rate : Int
  liftoff_distance : Int
  buttons : List (String × ButtonCfg)
  motion_sync : Bool
  ripple_control : Bool
  angle_snap : Bool
  debounce_time : Int
  power_saving : PowerSaving
deriving DecidableEq, Repr

/-- The configuration document: `{"profiles": {...}, "active_profile": id}`. -/
structure ConfigDoc where
  profiles : List (String × Profile)
  active_profile : String
deriving DecidableEq, Repr

/-- The profile `"1"` of `create_default_config()` (lines 85-112 of
`profiles.py`). -/
def defaultProfile1 : Profile :=
  { dpi_stages :=
      [("1", 800), ("2", 1600), ("3", 3200),
       ("4", 6400), ("5", 12800), ("6", 25600)],
    active_dpi_stage := 2,
    polling_rate := 1000,
    liftoff_distance := 10,
    buttons :=
      [("1", ⟨"Linksklick", 0x01⟩), ("2", ⟨"Rechtsklick", 0x02⟩),
       ("3", ⟨"Mittlere Taste", 0x03⟩), ("4", ⟨"Zurück", 0x04⟩),
       ("5", ⟨"Vorwärts", 0x05⟩)],
    motion_sync := true,
    ripple_control := false,
    angle_snap := false,
    debounce_time := 3,
    power_saving := ⟨30, 10⟩ }

/-- `create_default_config()` (lines 83-115 of `profiles.py`). -/
def create_default_config : ConfigDoc :=
  { profiles := [("1", defaultProfile1)],
    active_profile := "1" }

/-- The possible states of the config file as seen by `load_config`:
absent, unreadable (I/O error), unparseable JSON, or a valid document. -/
inductive FileState where
  | missing
  | ioError
  | parseError
  | valid (doc : ConfigDoc)

/-- `load_config()` (lines 56-74 of `profiles.py`): if the file does not
exist, return the default config; otherwise try to read and parse it, and on
any exception (I/O or JSON decoding) return the default config. -/
def load_config : FileState → ConfigDoc
  | .missing => create_default_config
  | .ioError => create_default_config
  | .parseError => create_default_config
  | .valid doc => doc

/-! ## Command encoders (`src/controllers/`) -/

/-- `create_dpi_command(dpi, stage)` (`controllers/dpi.py`, lines 15-36):
clamp and round the dpi, copy `CMD_SET_DPI`, write the stage verbatim at
index 1 and the dpi value big-endian at indices 2-3.  There is no stage
validation in this function. -/
def create_dpi_command (dpi : Int) (stage : Int := 1) : List Int :=
  let d := round10 (clampDpi dpi)
  (((CMD_SET_DPI.set 1 stage).set 2 (Int.ofNat (d / 256 % 256))).set 3
    (Int.ofNat (d % 256)))

/-- First-minimum selection of `min(POLLING_RATES, key=lambda x: abs(x - rate))`:
Python's `min` keeps the current best on ties, so it returns the first
element attaining the minimal absolute difference. -/
def pyMinStep (rate best x : Int) : Int :=
  if (x - rate).natAbs < (best - rate).natAbs then x else best

/-- `min(POLLING_RATES, key=lambda x: abs(x - rate))`. -/
def closestRate (rate : Int) : Int :=
  (POLLING_RATES.tail).foldl (pyMinStep rate) (POLLING_RATES.headD 0)

/-- The `rate_values` dict `{125: 0, ..., 8000: 6}` of
`set_polling_rate` / `create_polling_rate_command` (a failed lookup would be
a `KeyError`, modelled as `none`). -/
def rate_values (rate : Int) : Option Nat :=
  lookupA
    [((125 : Int), (0 : Nat)), (250, 1), (500, 2), (1000, 3),
     (2000, 4), (4000, 5), (8000, 6)] rate

/-- `create_polling_rate_command(rate)` (`controllers/polling.py`,
lines 16-47): snap to the nearest enumerated rate if needed, look the rate
up in `rate_values`, copy `CMD_SET_POLLING` and write the index at byte 1. -/
def create_polling_rate_command (rate : Int) : Option (List Int) :=
  let rate := if POLLING_RATES.contains rate then rate else closestRate rate
  (rate_values rate).map (fun idx => CMD_SET_POLLING.set 1 (Int.ofNat idx))

/-- `create_button_command(button, action_name)` (`controllers/buttons.py`,
lines 16-42): `None` when the button is outside 1-5 or the action name is
not in `BUTTON_ACTIONS`; otherwise the `CMD_SET_BUTTON` template with the
button id at byte 1 and the action code at byte 2. -/
def create_button_command (button : Int) (action_name : String) :
    Option (List Int) :=
  if ¬(1 ≤ button ∧ button ≤ 5) then none
  else
    match lookupA BUTTON_ACTIONS action_name with
    | none => none
    | some code =>
        some ((CMD_SET_BUTTON.set 1 button).set 2 (Int.ofNat code))

/-- `create_power_saving_command(idle_time, low_battery_threshold)`
(`controllers/power.py`, lines 16-39): clamp `idle_time` to `[30, 900]`,
write its low byte at index 1 and high byte at index 2; if a threshold is
given, clamp it to `[5, 20]` and write it at index 3. -/
def create_power_saving_command (idle_time : Int)
    (low_battery_threshold : Option Int := none) : List Int :=
  let idle := max 30 (min 900 idle_time)
  let command := (CMD_SET_POWER.set 1 (idle % 256)).set 2 (idle / 256 % 256)
  match low_battery_threshold with
  | none => command
  | some t => command.set 3 (max 5 (min 20 t))

/-- `set_active_dpi_stage(config, stage)` (`controllers/dpi.py`,
lines 57-74): raises `ValueError` when the stage is outside 1-6 — before any
mutation, so the caller's document is untouched on that path — otherwise
writes `active_dpi_stage` of the active profile (a missing active profile
would raise `KeyError`). -/
def set_active_dpi_stage (config : ConfigDoc) (stage : Int) :
    Except PyError ConfigDoc :=
  if ¬(1 ≤ stage ∧ stage ≤ 6) then .error .valueError
  else
    match lookupA config.profiles config.active_profile with
    | none => .error (.keyError config.active_profile)
    | some prof =>
        .ok { config with
                profiles := updateA config.profiles config.active_profile
                  { prof with active_dpi_stage := stage } }

/-- `copy_profile(config, source_id, target_id)` in the *value* model
(`profiles.py`, lines 164-184).  NOTE: this value-semantics version is
intentionally what the spec describes; the source actually performs a
shallow `dict.copy()`, whose aliasing is captured by the reference model
`RS` below. -/
def copy_profile_value (config : ConfigDoc) (source_id target_id : String) :
    ConfigDoc :=
  match lookupA config.profiles source_id with
  | none => config
  | some prof => { config with profiles := updateA config.profiles target_id prof }

/-! ## Mouse facade (`src/usb/usb_protocol.py`, class `PulsarMouse`)

Each setter mutates `self.config`, sends one command buffer via
`send_command(..., expect_response=False)` and calls `save_config`.  The
embedding passes the document explicitly and records the observable
effects: the new document, the list of sent command buffers and whether
`save_config` was invoked.  A raised exception becomes `Except.error`, in
which case no mutation, send or persist has happened on the paths modelled
here (the source raises before them). -/

/-- Result of one facade operation: the (possibly updated) document, the
command buffers handed to `send_command`, and whether `save_config` ran. -/
structure FacadeResult where
  config : ConfigDoc
  sent : List (List Int)
  saved : Bool
deriving DecidableEq, Repr

/-- Stage resolution in `set_dpi` (lines 231-238 of `usb_protocol.py`):
`None` defaults to the profile's `active_dpi_stage`, and a stage outside
1-6 falls back to stage 1 with a warning. -/
def resolveStage (prof : Profile) (stage : Option Int) : Int :=
  let s := stage.getD prof.active_dpi_stage
  if 1 ≤ s ∧ s ≤ 6 then s else 1

/-- `PulsarMouse.set_dpi(dpi, stage=None)` (lines 219-259 of
`usb_protocol.py`): look up the active profile (`KeyError` if the pointer
is stale), resolve the stage, clamp and round the dpi, store it under
`str(stage)`, build the `CMD_SET_DPI` buffer, send it and persist. -/
def set_dpi (config : ConfigDoc) (dpi : Int) (stage : Option Int := none) :
    Except PyError FacadeResult :=
  match lookupA config.profiles config.active_profile with
  | none => .error (.keyError config.active_profile)
  | some prof =>
      let st := resolveStage prof stage
      let d := round10 (clampDpi dpi)
      let prof' := { prof with
                       dpi_stages := updateA prof.dpi_stages (toString st)
                         (Int.ofNat d) }
      let command := (((CMD_SET_DPI.set 1 st).set 2
                        (Int.ofNat (d / 256 % 256))).set 3 (Int.ofNat (d % 256)))
      .ok { config := { config with
                          profiles := updateA config.profiles
                            config.active_profile prof' },
            sent := [command],
            saved := true }

/-- `PulsarMouse.set_polling_rate(rate)` (lines 261-304 of
`usb_protocol.py`): snap an out-of-set rate to the first enumerated rate of
minimal absolute difference, store it in the active profile (`KeyError` if
the pointer is stale), look up the protocol index and send
`CMD_SET_POLLING`, then persist. -/
def set_polling_rate (config : ConfigDoc) (rate : Int) :
    Except PyError FacadeResult :=
  let rate := if POLLING_RATES.contains rate then rate else closestRate rate
  match lookupA config.profiles config.active_profile with
  | none => .error (.keyError config.active_profile)
  | some prof =>
      match rate_values rate with
      | none => .error (.keyError (toString rate))
      | some idx =>
          .ok { config := { config with
                              profiles := updateA config.profiles
                                config.active_profile
                                { prof with polling_rate := rate } },
                sent := [CMD_SET_POLLING.set 1 (Int.ofNat idx)],
                saved := true }

/-- `PulsarMouse.set_button_mapping(button, action_name)` (lines 339-377 of
`usb_protocol.py`): an invalid button (outside 1-5) or unknown action name
returns immediately — no mutation, no send, no persist.  Otherwise the
binding `{action, code}` is stored under `str(button)` in the active
profile, `CMD_SET_BUTTON` is sent and the document persisted. -/
def set_button_mapping (config : ConfigDoc) (button : Int)
    (action_name : String) : Except PyError FacadeResult :=
  if ¬(1 ≤ button ∧ button ≤ 5) then
    .ok { config := config, sent := [], saved := false }
  else
    match lookupA BUTTON_ACTIONS action_name with
    | none => .ok { config := config, sent := [], saved := false }
    | some code =>
        match lookupA config.profiles config.active_profile with
        | none => .error (.keyError config.active_profile)
        | some prof =>
            .ok { config := { config with
                                profiles := updateA config.profiles
                                  config.active_profile
                                  { prof with
                                      buttons := updateA prof.buttons
                                        (toString button) ⟨action_name, code⟩ } },
                  sent := [(CMD_SET_BUTTON.set 1 button).set 2 (Int.ofNat code)],
                  saved := true }

/-- `PulsarMouse.set_motion_sync(enabled)` (lines 379-401 of
`usb_protocol.py`). -/
def set_motion_sync (config : ConfigDoc) (enabled : Bool) :
    Except PyError FacadeResult :=
  match lookupA config.profiles config.active_profile with
  | none => .error (.keyError config.active_profile)
  | some prof =>
      .ok { config := { config with
                          profiles := updateA config.profiles
                            config.active_profile
                            { prof with motion_sync := enabled } },
            sent := [CMD_SET_MOTION_SYNC.set 1 (if enabled then 1 else 0)],
            saved := true }

/-- `PulsarMouse.set_power_saving(idle_time, low_battery_threshold=None)`
(lines 403-445 of `usb_protocol.py`): clamp the idle time to `[30, 900]`
and store it; when a threshold is given, clamp it to `[5, 20]` and store
it, else leave `low_battery_threshold` untouched; the command carries the
idle time little-endian at bytes 1-2 and the threshold (when given) at
byte 3, which otherwise stays 0 from the template. -/
def set_power_saving (config : ConfigDoc) (idle_time : Int)
    (low_battery_threshold : Option Int := none) : Except PyError FacadeResult :=
  let idle := if 30 ≤ idle_time ∧ idle_time ≤ 900 then idle_time
              else max 30 (min 900 idle_time)
  match lookupA config.profiles config.active_profile with
  | none => .error (.keyError config.active_profile)
  | some prof =>
      let thr := low_battery_threshold.map
        (fun t => if 5 ≤ t ∧ t ≤ 20 then t else max 5 (min 20 t))
      let ps := { prof.power_saving with idle_time := idle }
      let ps := match thr with
                | none => ps
                | some t => { ps with low_battery_threshold := t }
      let command := (CMD_SET_POWER.set 1 (idle % 256)).set 2 (idle / 256 % 256)
      let command := match thr with
                     | none => command
                     | some t => command.set 3 t
      .ok { config := { config with
                          profiles := updateA config.profiles
                            config.active_profile
                            { prof with power_saving := ps } },
            sent := [command],
            saved := true }

/-- `PulsarMouse.save_to_profile(profile_num)` (lines 447-471 of
`usb_protocol.py`): outside 1-4 return without doing anything; otherwise
send `CMD_SAVE_PROFILE`, repoint `active_profile` to `str(profile_num)` —
without checking that this profile exists locally — and persist. -/
def save_to_profile (config : ConfigDoc) (profile_num : Int) : FacadeResult :=
  if ¬(1 ≤ profile_num ∧ profile_num ≤ 4) then
    { config := config, sent := [], saved := false }
  else
    { config := { config with active_profile := toString profile_num },
      sent := [CMD_SAVE_PROFILE.set 1 profile_num],
      saved := true }

/-- Python's `int(s)` restricted to unsigned decimal numerals, which is all
the program ever feeds it (the stage keys `"1"`-`"6"`); anything else is
`none`. -/
def pyIntOfString (s : String) : Option Int :=
  match s.data with
  | [] => none
  | cs =>
      if cs.all (fun c => '0' ≤ c ∧ c ≤ '9') then
        some (Int.ofNat (cs.foldl (fun n c => n * 10 + (c.toNat - '0'.toNat)) 0))
      else none

/-- The DPI stages of `print_profile_settings` (lines 117-162 of
`profiles.py`) that carry the active-stage marker `" *"`: those whose key
satisfies `int(stage) == active_dpi_stage`, paired with their DPI value
(`none` when the displayed profile does not exist). -/
def marked_dpi_stages (config : ConfigDoc) : Option (List (String × Int)) :=
  (lookupA config.profiles config.active_profile).map
    (fun prof => prof.dpi_stages.filter
      (fun p => pyIntOfString p.1 = some prof.active_dpi_stage))

/-- Reads `config["profiles"][pid]["dpi_stages"][stage]` from a facade
result, `none` on an error result or a missing key. -/
def storedDpi (r : Except PyError FacadeResult) (pid stage : String) :
    Option Int :=
  match r with
  | .error _ => none
  | .ok res => (lookupA res.config.profiles pid).bind
      (fun prof => lookupA prof.dpi_stages stage)

/-! ## Reference-semantics model of the profile dicts

In CPython a profile is a dict whose values `dpi_stages`, `buttons` and
`power_saving` are *references* to nested dicts, and
`config["profiles"][source_id].copy()` (line 181 of `profiles.py`) copies
only the outer dict: the copied profile holds the *same* nested dict
objects as the source.  The value model above cannot express that, so the
namespace `RS` re-embeds the operations touched by profile copying with an
explicit heap: nested dicts live in address-indexed stores and a profile
record holds their addresses.  `RS.copy_profile` duplicates the record —
addresses included — exactly as `dict.copy()` does. -/

namespace RS

/-- A profile dict under reference semantics: nested dicts are heap
addresses, scalar fields are values. -/
structure RProfile where
  dpi_stages : Nat
  active_dpi_stage : Int
  polling_rate : Int
  liftoff_distance : Int
  buttons : Nat
  motion_sync : Bool
  ripple_control : Bool
  angle_snap : Bool
  debounce_time : Int
  power_saving : Nat
deriving DecidableEq, Repr

/-- The interpreter state: one store per kind of nested dict, the
`profiles` dict and the `active_profile` pointer. -/
structure RState where
  dpiHeap : List (Nat × List (String × Int))
  buttonsHeap : List (Nat × List (String × ButtonCfg))
  powerHeap : List (Nat × PowerSaving)
  profiles : List (String × RProfile)
  active_profile : String
deriving DecidableEq, Repr

/-- The default configuration as an object graph: profile `"1"` holds the
addresses of three freshly allocated nested dicts. -/
def defaultRState : RState :=
  { dpiHeap := [(0, [("1", 800), ("2", 1600), ("3", 3200),
                     ("4", 6400), ("5", 12800), ("6", 25600)])],
    buttonsHeap := [(0, [("1", ⟨"Linksklick", 0x01⟩), ("2", ⟨"Rechtsklick", 0x02⟩),
                         ("3", ⟨"Mittlere Taste", 0x03⟩), ("4", ⟨"Zurück", 0x04⟩),
                         ("5", ⟨"Vorwärts", 0x05⟩)])],
    powerHeap := [(0, ⟨30, 10⟩)],
    profiles := [("1", { dpi_stages := 0, active_dpi_stage := 2,
                         polling_rate := 1000, liftoff_distance := 10,
                         buttons := 0, motion_sync := true,
                         ripple_control := false, angle_snap := false,
                         debounce_time := 3, power_saving := 0 })],
    active_profile := "1" }

/-- `copy_profile(config, source_id, target_id)` (`profiles.py`,
lines 164-184) under reference semantics: when the source exists, the
target entry becomes `source.copy()` — a new outer record carrying the
*same* nested-dict addresses. -/
def copy_profile (st : RState) (source_id target_id : String) : RState :=
  match lookupA st.profiles source_id with
  | none => st
  | some prof => { st with profiles := updateA st.profiles target_id prof }

/-- `PulsarMouse.save_to_profile` restricted to its effect on the document
(lines 454-468 of `usb_protocol.py`): repoints `active_profile`. -/
def save_to_profile (st : RState) (profile_num : Int) : RState :=
  if ¬(1 ≤ profile_num ∧ profile_num ≤ 4) then st
  else { st with active_profile := toString profile_num }

/-- `PulsarMouse.set_dpi` under reference semantics: the store
`profile_config["dpi_stages"][str(stage)] = dpi` (line 247 of
`usb_protocol.py`) mutates the nested dict *object* the active profile
points to.  `none` models a raised `KeyError` (stale pointer or dangling
address, the latter impossible for well-formed states). -/
def set_dpi (st : RState) (dpi : Int) (stage : Option Int := none) :
    Option RState :=
  match lookupA st.profiles st.active_profile with
  | none => none
  | some prof =>
      let stg := stage.getD prof.active_dpi_stage
      let stg := if 1 ≤ stg ∧ stg ≤ 6 then stg else 1
      let d := round10 (clampDpi dpi)
      match lookupA st.dpiHeap prof.dpi_stages with
      | none => none
      | some dict =>
          some { st with
                   dpiHeap := updateA st.dpiHeap prof.dpi_stages
                     (updateA dict (toString stg) (Int.ofNat d)) }

/-- Reads `config["profiles"][pid]["dpi_stages"][stage]` through the heap. -/
def getDpi (st : RState) (pid stage : String) : Option Int :=
  (lookupA st.profiles pid).bind
    (fun prof => (lookupA st.dpiHeap prof.dpi_stages).bind
      (fun dict => lookupA dict stage))

end RS

/-! ## Generic association-list lemmas -/

theorem lookupA_updateA_self {κ α : Type} [DecidableEq κ]
    (l : List (κ × α)) (k : κ) (v : α) :
    lookupA (updateA l k v) k = some v := by
  induction l with
  | nil => simp [lookupA, updateA]
  | cons hd tl ih =>
      obtain ⟨k', v'⟩ := hd
      by_cases h : k' = k
      · simp [lookupA, updateA, h]
      · simp [lookupA, updateA, h, ih]

theorem lookupA_updateA_of_ne {κ α : Type} [DecidableEq κ]
    (l : List (κ × α)) (k k' : κ) (v : α) (h : k ≠ k') :
    lookupA (updateA l k v) k' = lookupA l k' := by
  induction l with
  | nil => simp [lookupA, updateA, h]
  | cons hd tl ih =>
      obtain ⟨k'', v''⟩ := hd
      by_cases h2 : k'' = k
      · subst h2
        simp [lookupA, updateA, h]
      · simp [lookupA, updateA, h2, ih]

/-! ## Claim theorems -/

/-- C2: `copy_profile` copies a profile with `dict.copy()`, so the nested
`dpi_stages` dict of the copy is the *same object* as the source's.
Concretely: starting from the default document, `copy_profile(doc, "1", "2")`,
then repointing the active profile to `"2"` (as `save_to_profile(2)` does)
and calling `set_dpi(3200, 1)` overwrites stage `"1"` of profile `"1"` as
well — it changes from 800 to 3200 — contradicting the claimed value
independence of the copy. -/
theorem copy_profile_aliases_nested_dpi :
    RS.getDpi RS.defaultRState "1" "1" = some 800 ∧
    ((RS.set_dpi (RS.save_to_profile (RS.copy_profile RS.defaultRState "1" "2") 2)
        3200 (some 1)).bind (fun st => RS.getDpi st "1" "1")) = some 3200 := by
  constructor <;> rfl

/-- C8: `load_config` falls back to `create_default_config` on a missing
file, an I/O error, or a JSON parse failure, and the default document has
exactly one profile `"1"` with the six DPI stages 800/1600/3200/6400/12800/
25600, 1000 Hz polling, 1.0 mm (= 10 tenths) lift-off, the five default
button mappings, motion sync on, 3 ms debounce, 30 s idle time and a 10 %
battery threshold. -/
theorem load_config_never_fails_and_defaults :
    load_config .missing = create_default_config ∧
    load_config .ioError = create_default_config ∧
    load_config .parseError = create_default_config ∧
    create_default_config.active_profile = "1" ∧
    create_default_config.profiles.map Prod.fst = ["1"] ∧
    (lookupA create_default_config.profiles "1").map Profile.dpi_stages =
      some [("1", 800), ("2", 1600), ("3", 3200),
            ("4", 6400), ("5", 12800), ("6", 25600)] ∧
    (lookupA create_default_config.profiles "1").map Profile.polling_rate =
      some 1000 ∧
    (lookupA create_default_config.profiles "1").map Profile.liftoff_distance =
      some 10 ∧
    (lookupA create_default_config.profiles "1").map Profile.buttons =
      some [("1", ⟨"Linksklick", 0x01⟩), ("2", ⟨"Rechtsklick", 0x02⟩),
            ("3", ⟨"Mittlere Taste", 0x03⟩), ("4", ⟨"Zurück", 0x04⟩),
            ("5", ⟨"Vorwärts", 0x05⟩)] ∧
    (lookupA create_default_config.profiles "1").map Profile.motion_sync =
      some true ∧
    (lookupA create_default_config.profiles "1").map Profile.debounce_time =
      some 3 ∧
    (lookupA create_default_config.profiles "1").map Profile.power_saving =
      some ⟨30, 10⟩ := by
  refine ⟨rfl, rfl, rfl, rfl, rfl, rfl, rfl, rfl, rfl, rfl, rfl, rfl⟩

/-- C9: in the default document the active DPI stage is 2; `set_dpi` with
the stage unspecified therefore updates `dpi_stages["2"]` (all other stages
keep their default values), and the active-stage marker of
`show_current_settings` sits on stage `"2"` with 1600 DPI. -/
theorem default_active_dpi_stage_is_two :
    (lookupA create_default_config.profiles "1").map Profile.active_dpi_stage =
      some 2 ∧
    (∀ d : Int, ∃ v : Int,
      storedDpi (set_dpi create_default_config d none) "1" "2" = some v ∧
      storedDpi (set_dpi create_default_config d none) "1" "1" = some 800 ∧
      storedDpi (set_dpi create_default_config d none) "1" "3" = some 3200 ∧
      storedDpi (set_dpi create_default_config d none) "1" "4" = some 6400 ∧
      storedDpi (set_dpi create_default_config d none) "1" "5" = some 12800 ∧
      storedDpi (set_dpi create_default_config d none) "1" "6" = some 25600) ∧
    marked_dpi_stages create_default_config = some [("2", 1600)] := by
  refine ⟨rfl, ?_, by decide⟩
  intro d
  exact ⟨Int.ofNat (round10 (clampDpi d)), rfl, rfl, rfl, rfl, rfl, rfl⟩

/-- C4 counterexample: `save_to_profile(2)` on the default document leaves
`active_profile = "2"` while only profile `"1"` exists, and on that stale
document both `set_dpi` and `set_polling_rate` *raise* a `KeyError` at the
`config["profiles"][active_profile]` lookup — they are not tolerated. -/
theorem stale_active_profile_raises :
    (save_to_profile create_default_config 2).config.active_profile = "2" ∧
    lookupA (save_to_profile create_default_config 2).config.profiles "2" =
      none ∧
    set_dpi (save_to_profile create_default_config 2).config 1600 none =
      .error (.keyError "2") ∧
    set_polling_rate (save_to_profile create_default_config 2).config 500 =
      .error (.keyError "2") := by
  refine ⟨rfl, rfl, rfl, rfl⟩

/-- C4 (amended): for every document whose `active_profile` is not a key of
`profiles`, the facade setters `set_dpi` and `set_polling_rate` raise a
`KeyError` at the profile lookup instead of tolerating the stale pointer. -/
theorem facade_setters_raise_on_stale_pointer
    (doc : ConfigDoc) (dpi rate : Int) (stage : Option Int)
    (h : lookupA doc.profiles doc.active_profile = none) :
    set_dpi doc dpi stage = .error (.keyError doc.active_profile) ∧
    set_polling_rate doc rate = .error (.keyError doc.active_profile) := by
  constructor
  · unfold set_dpi
    rw [h]
  · unfold set_polling_rate
    rw [h]

/-- Witness for C4 at the stale document `save_to_profile(default, 2)`. -/
theorem facade_setters_raise_on_stale_pointer_witness :
    lookupA (save_to_profile create_default_config 2).config.profiles
      (save_to_profile create_default_config 2).config.active_profile = none ∧
    (set_dpi (save_to_profile create_default_config 2).config 1600 none =
        .error (.keyError
          (save_to_profile create_default_config 2).config.active_profile) ∧
      set_polling_rate (save_to_profile create_default_config 2).config 500 =
        .error (.keyError
          (save_to_profile create_default_config 2).config.active_profile)) :=
  ⟨rfl, facade_setters_raise_on_stale_pointer
    (save_to_profile create_default_config 2).config 1600 500 none rfl⟩

/-- C5: `set_button_mapping` is atomic — for a button outside 1-5 or an
action name missing from `BUTTON_ACTIONS` it returns with the document
unmodified, no command sent and no persist, and `create_button_command`
returns the `None` sentinel instead of a buffer for the same inputs. -/
theorem set_button_mapping_atomic
    (doc : ConfigDoc) (button : Int) (action_name : String)
    (h : ¬(1 ≤ button ∧ button ≤ 5) ∨
         lookupA BUTTON_ACTIONS action_name = none) :
    set_button_mapping doc button action_name =
      .ok { config := doc, sent := [], saved := false } ∧
    create_button_command button action_name = none := by
  rcases h with h | h
  · constructor
    · unfold set_button_mapping
      simp [h]
    · unfold create_button_command
      simp [h]
  · by_cases hb : 1 ≤ button ∧ button ≤ 5
    · constructor
      · unfold set_button_mapping
        simp [hb, h]
      · unfold create_button_command
        simp [hb, h]
    · constructor
      · unfold set_button_mapping
        simp [hb]
      · unfold create_button_command
        simp [hb]

/-- Witness for C5 at button 7 (out of range) with a valid action name, and
at a valid button with an unknown action name. -/
theorem set_button_mapping_atomic_witness :
    (¬((1 : Int) ≤ 7 ∧ (7 : Int) ≤ 5) ∨
        lookupA BUTTON_ACTIONS "Linksklick" = none) ∧
    (set_button_mapping create_default_config 7 "Linksklick" =
        .ok { config := create_default_config, sent := [], saved := false } ∧
      create_button_command 7 "Linksklick" = none) :=
  ⟨Or.inl (by decide),
   set_button_mapping_atomic create_default_config 7 "Linksklick"
     (Or.inl (by decide))⟩

/-- C10: `set_active_dpi_stage` rejects by exception — every stage outside
1-6 raises `ValueError`, before any mutation, so the caller's document is
unchanged — while the facade setter `set_dpi`, given the same invalid stage
on a document whose active profile exists, proceeds (falling back to stage
1) and persists. -/
theorem set_active_dpi_stage_rejects_out_of_range :
    (∀ (doc : ConfigDoc) (stage : Int), ¬(1 ≤ stage ∧ stage ≤ 6) →
      set_active_dpi_stage doc stage = .error .valueError) ∧
    (∀ (doc : ConfigDoc) (d stage : Int) (prof : Profile),
      lookupA doc.profiles doc.active_profile = some prof →
      ¬(1 ≤ stage ∧ stage ≤ 6) →
      ∃ res, set_dpi doc d (some stage) = .ok res ∧ res.saved = true) := by
  constructor
  · intro doc stage h
    unfold set_active_dpi_stage
    simp [h]
  · intro doc d stage prof hp _h
    simp only [set_dpi, hp]
    exact ⟨_, rfl, rfl⟩

/-- Witness for C10 at stage 9 on the default document. -/
theorem set_active_dpi_stage_rejects_out_of_range_witness :
    (¬((1 : Int) ≤ 9 ∧ (9 : Int) ≤ 6) ∧
      set_active_dpi_stage create_default_config 9 = .error .valueError) ∧
    (lookupA create_default_config.profiles
        create_default_config.active_profile ≠ none ∧
      ∃ res, set_dpi create_default_config 1600 (some 9) = .ok res ∧
        res.saved = true) :=
  ⟨⟨by decide,
    set_active_dpi_stage_rejects_out_of_range.1 create_default_config 9
      (by decide)⟩,
   ⟨by decide,
    set_active_dpi_stage_rejects_out_of_range.2 create_default_config 1600 9 _
      rfl (by decide)⟩⟩

/-- C1 counterexample: Python's `round` rounds halves to even, so
`round(1605 / 10) = 160` and `set_dpi(1605, 2)` on the default document
stores 1600, not the claimed 1610. -/
theorem set_dpi_1605_rounds_to_1600 :
    storedDpi (set_dpi create_default_config 1605 (some 2)) "1" "2" =
      some 1600 ∧
    storedDpi (set_dpi create_default_config 1605 (some 2)) "1" "2" ≠
      some 1610 := by
  exact ⟨rfl, by decide⟩

/-- C1 (amended): for every integer dpi input, `set_dpi` stores and encodes
one and the same value — the input clamped to `[50, 32000]` and rounded to
a nearest multiple of 10, with a tie (clamped value ≡ 5 mod 10) resolved to
the even multiple of 10 (Python banker's rounding); big-endian bytes 2-3 of
the sent command recombine to exactly the stored value. -/
theorem set_dpi_stores_and_encodes_rounded_clamped
    (doc : ConfigDoc) (dpi : Int) (stage : Option Int) (prof : Profile)
    (h : lookupA doc.profiles doc.active_profile = some prof) :
    ∃ (res : FacadeResult) (v : Nat) (cmd : List Int),
      set_dpi doc dpi stage = .ok res ∧
      res.sent = [cmd] ∧ res.saved = true ∧
      storedDpi (set_dpi doc dpi stage) doc.active_profile
        (toString (resolveStage prof stage)) = some (Int.ofNat v) ∧
      (∃ hi lo : Nat, cmd.get? 2 = some (Int.ofNat hi) ∧
        cmd.get? 3 = some (Int.ofNat lo) ∧ hi * 256 + lo = v) ∧
      v % 10 = 0 ∧ 50 ≤ v ∧ v ≤ 32000 ∧
      (∀ m : Nat, ((v : Int) - clampDpi dpi).natAbs ≤
        ((10 * m : Int) - clampDpi dpi).natAbs) ∧
      (clampDpi dpi % 10 = 5 → v % 20 = 0) := by
  obtain ⟨hb1, hb2⟩ := clampDpi_bounds dpi
  obtain ⟨hr1, hr2⟩ := round10_bounds hb1 hb2
  refine ⟨_, round10 (clampDpi dpi), _,
    by simp only [set_dpi, h]; rfl, rfl, rfl, ?_,
    ⟨round10 (clampDpi dpi) / 256, round10 (clampDpi dpi) % 256,
      ?_, ?_, by omega⟩,
    round10_mult10 _, hr1, hr2,
    fun m => round10_nearest _ m, fun ht => round10_tie_even ht⟩
  · simp only [set_dpi, storedDpi, h, lookupA_updateA_self, Option.some_bind]
  · have : round10 (clampDpi dpi) / 256 % 256 = round10 (clampDpi dpi) / 256 := by
      omega
    simp only [CMD_SET_DPI, this]
    rfl
  · simp only [CMD_SET_DPI]
    rfl

/-- Witness for C1 at `set_dpi(1605, 2)` on the default document. -/
theorem set_dpi_stores_and_encodes_rounded_clamped_witness :
    lookupA create_default_config.profiles
        create_default_config.active_profile = some defaultProfile1 ∧
    (∃ (res : FacadeResult) (v : Nat) (cmd : List Int),
      set_dpi create_default_config 1605 (some 2) = .ok res ∧
      res.sent = [cmd] ∧ res.saved = true ∧
      storedDpi (set_dpi create_default_config 1605 (some 2))
        create_default_config.active_profile
        (toString (resolveStage defaultProfile1 (some 2))) = some (Int.ofNat v) ∧
      (∃ hi lo : Nat, cmd.get? 2 = some (Int.ofNat hi) ∧
        cmd.get? 3 = some (Int.ofNat lo) ∧ hi * 256 + lo = v) ∧
      v % 10 = 0 ∧ 50 ≤ v ∧ v ≤ 32000 ∧
      (∀ m : Nat, ((v : Int) - clampDpi 1605).natAbs ≤
        ((10 * m : Int) - clampDpi 1605).natAbs) ∧
      (clampDpi 1605 % 10 = 5 → v % 20 = 0)) :=
  ⟨rfl, set_dpi_stores_and_encodes_rounded_clamped
    create_default_config 1605 (some 2) defaultProfile1 rfl⟩

/-- C6 counterexample: `create_dpi_command(800, 9)` writes the out-of-range
stage 9 verbatim into byte 1 — the encoder has no `else 1` fallback (that
fallback lives in the facade `set_dpi`). -/
theorem create_dpi_command_stage_verbatim :
    (create_dpi_command 800 9).get? 1 = some 9 ∧
    (create_dpi_command 800 9).get? 1 ≠ some 1 := by
  exact ⟨rfl, by decide⟩

/-- C6 (amended): for all integers `d` and `s`, `create_dpi_command` yields
an 8-byte buffer with opcode `0x20` at byte 0, whose bytes 2-3 hold,
big-endian, the 16-bit value obtained by clamping `d` to `[50, 32000]` and
rounding to a nearest multiple of 10, and whose byte 1 holds `s` verbatim —
the encoder applies no stage validation; the `s ∈ [1,6]`-else-1 fallback is
performed only by the facade `set_dpi`. -/
theorem create_dpi_command_layout (d s : Int) :
    ∃ v hi lo : Nat,
      create_dpi_command d s =
        [0x20, s, Int.ofNat hi, Int.ofNat lo, 0, 0, 0, 0] ∧
      hi < 256 ∧ lo < 256 ∧ hi * 256 + lo = v ∧
      v % 10 = 0 ∧ 50 ≤ v ∧ v ≤ 32000 ∧
      (∀ m : Nat, ((v : Int) - clampDpi d).natAbs ≤
        ((10 * m : Int) - clampDpi d).natAbs) := by
  obtain ⟨hb1, hb2⟩ := clampDpi_bounds d
  obtain ⟨hr1, hr2⟩ := round10_bounds hb1 hb2
  refine ⟨round10 (clampDpi d), round10 (clampDpi d) / 256 % 256,
    round10 (clampDpi d) % 256, ?_, by omega, by omega, by omega,
    round10_mult10 _, hr1, hr2, fun m => round10_nearest _ m⟩
  simp only [create_dpi_command, CMD_SET_DPI]
  rfl

/-- Closed form of `min(POLLING_RATES, key=lambda x: abs(x - rate))`: the
snap thresholds sit at the midpoints between consecutive enumerated rates,
and an exact midpoint (187.5 rounds oddly: 187/188, 375, 750, 1500, 3000,
6000) goes to the lower rate because Python's `min` keeps the first
minimum of the ascending list. -/
theorem closestRate_characterization (r : Int) :
    closestRate r =
      if r ≤ 187 then 125
      else if r ≤ 375 then 250
      else if r ≤ 750 then 500
      else if r ≤ 1500 then 1000
      else if r ≤ 3000 then 2000
      else if r ≤ 6000 then 4000
      else 8000 := by
  have step : ∀ b x : Int,
      pyMinStep r b x = if (x - r).natAbs < (b - r).natAbs then x else b :=
    fun b x => rfl
  show pyMinStep r (pyMinStep r (pyMinStep r (pyMinStep r (pyMinStep r
    (pyMinStep r 125 250) 500) 1000) 2000) 4000) 8000 = _
  by_cases h1 : r ≤ 187
  · rw [step 125 250, if_neg (by omega), step 125 500, if_neg (by omega),
      step 125 1000, if_neg (by omega), step 125 2000, if_neg (by omega),
      step 125 4000, if_neg (by omega), step 125 8000, if_neg (by omega)]
    split_ifs
    omega
  by_cases h2 : r ≤ 375
  · rw [step 125 250, if_pos (by omega), step 250 500, if_neg (by omega),
      step 250 1000, if_neg (by omega), step 250 2000, if_neg (by omega),
      step 250 4000, if_neg (by omega), step 250 8000, if_neg (by omega)]
    split_ifs
    omega
  by_cases h3 : r ≤ 750
  · rw [step 125 250, if_pos (by omega), step 250 500, if_pos (by omega),
      step 500 1000, if_neg (by omega), step 500 2000, if_neg (by omega),
      step 500 4000, if_neg (by omega), step 500 8000, if_neg (by omega)]
    split_ifs
    omega
  by_cases h4 : r ≤ 1500
  · rw [step 125 250, if_pos (by omega), step 250 500, if_pos (by omega),
      step 500 1000, if_pos (by omega), step 1000 2000, if_neg (by omega),
      step 1000 4000, if_neg (by omega), step 1000 8000, if_neg (by omega)]
    split_ifs
    omega
  by_cases h5 : r ≤ 3000
  · rw [step 125 250, if_pos (by omega), step 250 500, if_pos (by omega),
      step 500 1000, if_pos (by omega), step 1000 2000, if_pos (by omega),
      step 2000 4000, if_neg (by omega), step 2000 8000, if_neg (by omega)]
    split_ifs
    omega
  by_cases h6 : r ≤ 6000
  · rw [step 125 250, if_pos (by omega), step 250 500, if_pos (by omega),
      step 500 1000, if_pos (by omega), step 1000 2000, if_pos (by omega),
      step 2000 4000, if_pos (by omega), step 4000 8000, if_neg (by omega)]
    split_ifs
    omega
  · rw [step 125 250, if_pos (by omega), step 250 500, if_pos (by omega),
      step 500 1000, if_pos (by omega), step 1000 2000, if_pos (by omega),
      step 2000 4000, if_pos (by omega), step 4000 8000, if_pos (by omega)]
    split_ifs
    omega

/-- C3: for every rate outside the enumerated set, the snapped rate is the
enumerated rate of minimal absolute difference, and an exact tie resolves
to the lower rate (Python's `min` keeps the first minimum of the ascending
list); in particular `set_polling_rate(3000)` — equidistant from 2000 and
4000 — stores 2000 and both the facade and `create_polling_rate_command`
encode rate index 4 at byte 1. -/
theorem set_polling_rate_snaps_to_nearest :
    (∀ r : Int, r ∉ POLLING_RATES →
      closestRate r ∈ POLLING_RATES ∧
      (∀ x ∈ POLLING_RATES, ((closestRate r) - r).natAbs ≤ (x - r).natAbs) ∧
      (∀ x ∈ POLLING_RATES, (x - r).natAbs = ((closestRate r) - r).natAbs →
        closestRate r ≤ x)) ∧
    (∃ res, set_polling_rate create_default_config 3000 = .ok res ∧
      (lookupA res.config.profiles "1").map Profile.polling_rate =
        some 2000 ∧
      res.sent = [[0x30, 4, 0, 0, 0, 0, 0, 0]] ∧ res.saved = true) ∧
    create_polling_rate_command 3000 = some [0x30, 4, 0, 0, 0, 0, 0, 0] := by
  refine ⟨?_, ⟨_, rfl, rfl, rfl, rfl⟩, rfl⟩
  intro r _hr
  rw [closestRate_characterization]
  simp only [POLLING_RATES, List.mem_cons, List.not_mem_nil, or_false]
  split_ifs <;>
    refine ⟨by omega, ?_, ?_⟩ <;>
    · rintro x (rfl | rfl | rfl | rfl | rfl | rfl | rfl) <;> omega

/-- Witness for C3 at the tied rate 3000. -/
theorem set_polling_rate_snaps_to_nearest_witness :
    (3000 : Int) ∉ POLLING_RATES ∧
    (closestRate 3000 ∈ POLLING_RATES ∧
      (∀ x ∈ POLLING_RATES, ((closestRate 3000) - 3000).natAbs ≤
        (x - 3000).natAbs) ∧
      (∀ x ∈ POLLING_RATES,
        (x - 3000).natAbs = ((closestRate 3000) - 3000).natAbs →
        closestRate 3000 ≤ x)) :=
  ⟨by decide, set_polling_rate_snaps_to_nearest.1 3000 (by decide)⟩

/-- C7: `set_power_saving` clamps the idle time to `[30, 900]` and, when a
threshold is given, the threshold to `[5, 20]`, in both the stored profile
and the sent command (idle low byte at offset 1, high byte at offset 2,
threshold at offset 3); with the threshold omitted,
`low_battery_threshold` keeps its previous value and command byte 3 stays
0.  In particular `set_power_saving(1000, 25)` stores `idle_time = 900`
and `low_battery_threshold = 20`. -/
theorem set_power_saving_clamps
    (doc : ConfigDoc) (idle : Int) (thr : Option Int) (prof : Profile)
    (h : lookupA doc.profiles doc.active_profile = some prof) :
    (∃ res cmd,
      set_power_saving doc idle thr = .ok res ∧
      res.sent = [cmd] ∧ res.saved = true ∧
      (lookupA res.config.profiles doc.active_profile).map
        (fun p => p.power_saving.idle_time) = some (max 30 (min 900 idle)) ∧
      cmd.get? 1 = some (max 30 (min 900 idle) % 256) ∧
      cmd.get? 2 = some (max 30 (min 900 idle) / 256 % 256) ∧
      (thr = none →
        (lookupA res.config.profiles doc.active_profile).map
          (fun p => p.power_saving.low_battery_threshold) =
          some prof.power_saving.low_battery_threshold ∧
        cmd.get? 3 = some 0) ∧
      (∀ t, thr = some t →
        (lookupA res.config.profiles doc.active_profile).map
          (fun p => p.power_saving.low_battery_threshold) =
          some (max 5 (min 20 t)) ∧
        cmd.get? 3 = some (max 5 (min 20 t)))) ∧
    (set_power_saving create_default_config 1000 (some 25)).toOption.map
      (fun r => (lookupA r.config.profiles "1").map
        (fun p => (p.power_saving.idle_time,
                   p.power_saving.low_battery_threshold))) =
      some (some (900, 20)) := by
  have hidle : (if 30 ≤ idle ∧ idle ≤ 900 then idle
                else max 30 (min 900 idle)) = max 30 (min 900 idle) := by
    split_ifs <;> omega
  refine ⟨?_, rfl⟩
  cases thr with
  | none =>
      have heq : set_power_saving doc idle none = .ok
          { config := { doc with
              profiles := updateA doc.profiles doc.active_profile
                { prof with power_saving :=
                    { prof.power_saving with
                        idle_time := max 30 (min 900 idle) } } },
            sent := [(CMD_SET_POWER.set 1 (max 30 (min 900 idle) % 256)).set 2
              (max 30 (min 900 idle) / 256 % 256)],
            saved := true } := by
        simp only [set_power_saving, h, hidle, Option.map_none']
      refine ⟨_, _, heq, rfl, rfl, ?_, rfl, rfl, fun _ => ⟨?_, rfl⟩,
        fun t ht => by simp at ht⟩
      · simp only [lookupA_updateA_self, Option.map_some']
      · simp only [lookupA_updateA_self, Option.map_some']
  | some t =>
      have hthr : (if 5 ≤ t ∧ t ≤ 20 then t else max 5 (min 20 t)) =
          max 5 (min 20 t) := by
        split_ifs <;> omega
      have heq : set_power_saving doc idle (some t) = .ok
          { config := { doc with
              profiles := updateA doc.profiles doc.active_profile
                { prof with power_saving :=
                    { idle_time := max 30 (min 900 idle),
                      low_battery_threshold := max 5 (min 20 t) } } },
            sent := [((CMD_SET_POWER.set 1 (max 30 (min 900 idle) % 256)).set 2
              (max 30 (min 900 idle) / 256 % 256)).set 3 (max 5 (min 20 t))],
            saved := true } := by
        simp only [set_power_saving, h, hidle, hthr, Option.map_some']
      refine ⟨_, _, heq, rfl, rfl, ?_, rfl, rfl, fun hn => by simp at hn,
        fun t' ht' => ?_⟩
      · simp only [lookupA_updateA_self, Option.map_some']
      · obtain rfl : t = t' := by simpa using ht'
        refine ⟨?_, rfl⟩
        simp only [lookupA_updateA_self, Option.map_some']

/-- Witness for C7 at `set_power_saving(1000, 25)` on the default document. -/
theorem set_power_saving_clamps_witness :
    lookupA create_default_config.profiles
        create_default_config.active_profile = some defaultProfile1 ∧
    ((∃ res cmd,
      set_power_saving create_default_config 1000 (some 25) = .ok res ∧
      res.sent = [cmd] ∧ res.saved = true ∧
      (lookupA res.config.profiles create_default_config.active_profile).map
        (fun p => p.power_saving.idle_time) =
        some (max 30 (min 900 (1000 : Int))) ∧
      cmd.get? 1 = some (max 30 (min 900 (1000 : Int)) % 256) ∧
      cmd.get? 2 = some (max 30 (min 900 (1000 : Int)) / 256 % 256) ∧
      ((some (25 : Int)) = none →
        (lookupA res.config.profiles
          create_default_config.active_profile).map
          (fun p => p.power_saving.low_battery_threshold) =
          some defaultProfile1.power_saving.low_battery_threshold ∧
        cmd.get? 3 = some 0) ∧
      (∀ t, (some (25 : Int)) = some t →
        (lookupA res.config.profiles
          create_default_config.active_profile).map
          (fun p => p.power_saving.low_battery_threshold) =
          some (max 5 (min 20 t)) ∧
        cmd.get? 3 = some (max 5 (min 20 t)))) ∧
    (set_power_saving create_default_config 1000 (some 25)).toOption.map
      (fun r => (lookupA r.config.profiles "1").map
        (fun p => (p.power_saving.idle_time,
                   p.power_saving.low_battery_threshold))) =
      some (some (900, 20))) :=
  ⟨rfl, set_power_saving_clamps create_default_config 1000 (some 25)
    defaultProfile1 rfl⟩
